import Mathlib

/-!
Verification development for the jiuwallet blockchain-access core.

The definitions below are a shallow embedding of the TypeScript source:
  - src/utils/blockchain.ts   (gas estimator, preflight, retry, transfers)
  - src/utils/rpcOptimizer.ts (endpoint pool, TTL cache, getBalance)
  - src/utils/transactionVerifier.ts (confirmation classification)
  - src/utils/contractValidation.ts  (validated-contract store)

Modelling conventions:
  - JS bigint wei amounts are ℕ; signed intermediate results are ℤ.
  - Date.now() timestamps and durations are ℕ milliseconds.
  - JS number gas multipliers are exact decimals with one fractional digit,
    represented as ℕ in tenths (1.5 ↦ 15, 1.2 ↦ 12, 1.0 ↦ 10, 5 ↦ 50);
    BigInt(Math.floor(Number(x) * m)) is then exactly x * m10 / 10 in ℕ.
  - Network I/O is abstracted as explicitly passed outcomes (Except / oracles);
    the embedding captures the deterministic data flow of each function.
-/

/-- Truthiness of an optional JS bigint/number: present and nonzero. -/
def optTruthy (o : Option Nat) : Bool :=
  match o with
  | some n => n != 0
  | none => false

/-- Result of provider.getFeeData(): gasPrice, maxFeePerGas, maxPriorityFeePerGas,
each possibly null (and JS-falsy when zero). -/
structure FeeData where
  gasPrice : Option Nat
  maxFeePerGas : Option Nat
  maxPriorityFeePerGas : Option Nat
deriving DecidableEq, Repr

/-- GasEstimate record of blockchain.ts (lines 65-71). -/
structure GasEstimate where
  gasLimit : Nat
  gasPrice : Nat
  maxFeePerGas : Option Nat
  maxPriorityFeePerGas : Option Nat
  totalCost : Nat
deriving DecidableEq, Repr

/-- Gas strategy names accepted by estimateGas / estimateTokenGas. -/
inductive GasStrategy
  | fast
  | standard
  | safe
  | custom
deriving DecidableEq, Repr

/-- GAS_STRATEGIES table (blockchain.ts lines 51-56): fast 1.5, standard 1.2,
safe 1.0, custom 1.0 (base value, overridden by the user config), in tenths. -/
def GAS_STRATEGIES : GasStrategy → Nat
  | .fast => 15
  | .standard => 12
  | .safe => 10
  | .custom => 10

/-- CustomGasConfig (blockchain.ts lines 59-63): gasMultiplier in tenths,
optional gasLimit override, crazyMode flag. -/
structure CustomGasConfig where
  gasMultiplier : Nat
  gasLimit : Option Nat
  crazyMode : Bool
deriving DecidableEq, Repr

/-- BigInt(Math.floor(Number(x) * m)) for a tenths-scaled multiplier m10. -/
def applyMult (x m10 : Nat) : Nat := x * m10 / 10

/-- Effective multiplier computed at blockchain.ts lines 316-322 (and the
verbatim copy at 380-386): the strategy table value, except that a present
custom config replaces it by gasMultiplier, with a floor of 5 in crazyMode. -/
def effectiveMultiplier (strategy : GasStrategy) (cfg : Option CustomGasConfig) : Nat :=
  match strategy, cfg with
  | .custom, some c => if c.crazyMode then max c.gasMultiplier 50 else c.gasMultiplier
  | s, _ => GAS_STRATEGIES s

/-- Final gas limit (blockchain.ts lines 325-327): a truthy custom gasLimit is
used only under the custom strategy, otherwise the estimated limit. -/
def finalGasLimit (strategy : GasStrategy) (cfg : Option CustomGasConfig)
    (estimatedGasLimit : Nat) : Nat :=
  match strategy, cfg with
  | .custom, some c =>
    match c.gasLimit with
    | some gl => if gl != 0 then gl else estimatedGasLimit
    | none => estimatedGasLimit
  | _, _ => estimatedGasLimit

/-- Fee computation of estimateGas (blockchain.ts lines 316-353), after the
provider returned feeData and an estimated gas limit.  The EIP-1559 branch is
taken when both market fields are truthy; totalCost = finalGasLimit * maxFee
(resp. the multiplied legacy price). -/
def estimateGas (feeData : FeeData) (estimatedGasLimit : Nat)
    (strategy : GasStrategy) (cfg : Option CustomGasConfig) : GasEstimate :=
  let multiplier := effectiveMultiplier strategy cfg
  let gl := finalGasLimit strategy cfg estimatedGasLimit
  if optTruthy feeData.maxFeePerGas && optTruthy feeData.maxPriorityFeePerGas then
    let maxFeePerGas := applyMult (feeData.maxFeePerGas.getD 0) multiplier
    let maxPriorityFeePerGas := applyMult (feeData.maxPriorityFeePerGas.getD 0) multiplier
    { gasLimit := gl
      gasPrice := maxFeePerGas
      maxFeePerGas := some maxFeePerGas
      maxPriorityFeePerGas := some maxPriorityFeePerGas
      totalCost := gl * maxFeePerGas }
  else
    let gasPrice := applyMult (feeData.gasPrice.getD 0) multiplier
    { gasLimit := gl
      gasPrice := gasPrice
      maxFeePerGas := none
      maxPriorityFeePerGas := none
      totalCost := gl * gasPrice }

/-- estimateTokenGas (blockchain.ts lines 358-422): once the limit has been
estimated against the token contract, the multiplier and fee computation
(lines 380-417) duplicate estimateGas lines 316-353 verbatim. -/
def estimateTokenGas (feeData : FeeData) (estimatedGasLimit : Nat)
    (strategy : GasStrategy) (cfg : Option CustomGasConfig) : GasEstimate :=
  let multiplier := effectiveMultiplier strategy cfg
  let gl := finalGasLimit strategy cfg estimatedGasLimit
  if optTruthy feeData.maxFeePerGas && optTruthy feeData.maxPriorityFeePerGas then
    let maxFeePerGas := applyMult (feeData.maxFeePerGas.getD 0) multiplier
    let maxPriorityFeePerGas := applyMult (feeData.maxPriorityFeePerGas.getD 0) multiplier
    { gasLimit := gl
      gasPrice := maxFeePerGas
      maxFeePerGas := some maxFeePerGas
      maxPriorityFeePerGas := some maxPriorityFeePerGas
      totalCost := gl * maxFeePerGas }
  else
    let gasPrice := applyMult (feeData.gasPrice.getD 0) multiplier
    { gasLimit := gl
      gasPrice := gasPrice
      maxFeePerGas := none
      maxPriorityFeePerGas := none
      totalCost := gl * gasPrice }

/-- Gas configuration taken by estimateSilenceGas (akasdao.ts lines 415-423).
gasLimit is a truthy-checked string in the source, modelled as Option ℕ;
the numeric fields are tenths-scaled multipliers. -/
structure SilenceGasConfig where
  gasLimit : Option Nat
  gasStrategy : Option GasStrategy
  gasMultiplier : Option Nat
  rescueMode : Option Bool
  rescueGasMultiplier : Option Nat
deriving DecidableEq, Repr

/-- Multiplier selection of estimateSilenceGas (akasdao.ts lines 439-445):
let multiplier = 1; rescueMode with a truthy rescueGasMultiplier uses that
value unchanged (no floor); otherwise a truthy gasMultiplier is used. -/
def silenceMultiplier (cfg : SilenceGasConfig) : Nat :=
  if cfg.rescueMode = some true && optTruthy cfg.rescueGasMultiplier then
    cfg.rescueGasMultiplier.getD 10
  else if optTruthy cfg.gasMultiplier then
    cfg.gasMultiplier.getD 10
  else 10

/-- Partial gas plan returned by estimateSilenceGas (akasdao.ts lines 447-471). -/
structure SilenceGasEstimate where
  gasLimit : Nat
  gasPrice : Option Nat
  maxFeePerGas : Option Nat
  maxPriorityFeePerGas : Option Nat
deriving DecidableEq, Repr

/-- estimateSilenceGas fee computation (akasdao.ts lines 439-471); the
catch-all fallback to gasLimit 300000 on estimator failure is not modelled
(inputs are the successfully fetched feeData and estimated limit). -/
def estimateSilenceGas (cfg : SilenceGasConfig) (feeData : FeeData)
    (estimatedGasLimit : Nat) : SilenceGasEstimate :=
  let multiplier := silenceMultiplier cfg
  let gl := cfg.gasLimit.getD estimatedGasLimit
  if optTruthy feeData.maxFeePerGas && optTruthy feeData.maxPriorityFeePerGas then
    { gasLimit := gl
      gasPrice := none
      maxFeePerGas := some (applyMult (feeData.maxFeePerGas.getD 0) multiplier)
      maxPriorityFeePerGas := some (applyMult (feeData.maxPriorityFeePerGas.getD 0) multiplier) }
  else
    { gasLimit := gl
      gasPrice := some (applyMult (feeData.gasPrice.getD 0) multiplier)
      maxFeePerGas := none
      maxPriorityFeePerGas := none }

/-- Monotonicity of the floored multiplier application. -/
theorem applyMult_mono (x : Nat) {m₁ m₂ : Nat} (h : m₁ ≤ m₂) :
    applyMult x m₁ ≤ applyMult x m₂ :=
  Nat.div_le_div_right (Nat.mul_le_mul_left x h)

/-- C8: for identical fee data and identical gas limit, estimateGas totalCost
is monotone in strategy aggressiveness (safe ≤ standard ≤ fast), the strategies
applying multipliers 1.0, 1.2 and 1.5 (in tenths: 10, 12, 15) to the price
fields. -/
theorem estimateGas_strategy_monotone (feeData : FeeData) (estimatedGasLimit : Nat) :
    (estimateGas feeData estimatedGasLimit .safe none).totalCost
      ≤ (estimateGas feeData estimatedGasLimit .standard none).totalCost
    ∧ (estimateGas feeData estimatedGasLimit .standard none).totalCost
      ≤ (estimateGas feeData estimatedGasLimit .fast none).totalCost
    ∧ GAS_STRATEGIES .fast = 15 ∧ GAS_STRATEGIES .standard = 12
    ∧ GAS_STRATEGIES .safe = 10 := by
  refine ⟨?_, ?_, rfl, rfl, rfl⟩ <;>
  · unfold estimateGas effectiveMultiplier finalGasLimit GAS_STRATEGIES
    by_cases h : optTruthy feeData.maxFeePerGas && optTruthy feeData.maxPriorityFeePerGas <;>
      simp only [h, if_true, if_false, Bool.false_eq_true] <;>
      exact Nat.mul_le_mul_left _ (applyMult_mono _ (by omega))

/-- C5 counterexample: at the silence call site (akasdao.ts lines 439-445),
the explicit maximum-aggression flag (rescueMode) does not enforce the
minimum 5x multiplier: a rescue config with multiplier 2 (20 tenths) is
applied to the fee fields unchanged (maxFeePerGas 100 becomes 200, not the
at-least-500 a 5x floor would give). -/
theorem silence_rescue_multiplier_below_floor :
    silenceMultiplier ⟨none, none, none, some true, some 20⟩ = 20
    ∧ silenceMultiplier ⟨none, none, none, some true, some 20⟩ < 50
    ∧ (estimateSilenceGas ⟨none, none, none, some true, some 20⟩
        ⟨none, some 100, some 10⟩ 21000).maxFeePerGas = some 200
    ∧ applyMult 100 50 = 500 := by decide

/-- C5 amended: the minimum 5x (50 tenths) crazy-mode floor is enforced at the
estimateGas and estimateTokenGas call sites (whose fee computations coincide),
but estimateSilenceGas applies the caller-supplied rescue multiplier with no
floor. -/
theorem crazyMode_floor_amended :
    (∀ c : CustomGasConfig, c.crazyMode = true →
      50 ≤ effectiveMultiplier .custom (some c))
    ∧ (∀ (c : CustomGasConfig) (fd : FeeData) (gl mf mp : Nat),
        c.crazyMode = true → fd.maxFeePerGas = some mf →
        fd.maxPriorityFeePerGas = some mp → mf ≠ 0 → mp ≠ 0 →
        applyMult mf 50 ≤ ((estimateGas fd gl .custom (some c)).maxFeePerGas.getD 0)
        ∧ applyMult mp 50 ≤
          ((estimateGas fd gl .custom (some c)).maxPriorityFeePerGas.getD 0))
    ∧ (∀ (fd : FeeData) (gl : Nat) (s : GasStrategy) (c : Option CustomGasConfig),
        estimateTokenGas fd gl s c = estimateGas fd gl s c)
    ∧ (∀ m : Nat, m ≠ 0 →
        silenceMultiplier ⟨none, none, none, some true, some m⟩ = m) := by
  refine ⟨?_, ?_, ?_, ?_⟩
  · intro c hc
    simp only [effectiveMultiplier, hc, if_true]
    omega
  · intro c fd gl mf mp hc hmf hmp hmf0 hmp0
    have hfloor : 50 ≤ effectiveMultiplier .custom (some c) := by
      simp only [effectiveMultiplier, hc, if_true]; omega
    constructor
    · simp [estimateGas, hmf, hmp, optTruthy, hmf0, hmp0]
      exact applyMult_mono mf hfloor
    · simp [estimateGas, hmf, hmp, optTruthy, hmf0, hmp0]
      exact applyMult_mono mp hfloor
  · intro fd gl s c
    rfl
  · intro m hm
    simp [silenceMultiplier, optTruthy, hm]

/-- C5 witness: the amended theorem applied at a concrete crazy-mode config
(multiplier 2, floored to 5) and at a concrete nonzero rescue multiplier. -/
theorem crazyMode_floor_amended_witness :
    (50 ≤ effectiveMultiplier .custom (some ⟨20, none, true⟩))
    ∧ (applyMult 100 50 ≤
        ((estimateGas ⟨none, some 100, some 10⟩ 21000 .custom
          (some ⟨20, none, true⟩)).maxFeePerGas.getD 0))
    ∧ silenceMultiplier ⟨none, none, none, some true, some 20⟩ = 20 :=
  ⟨crazyMode_floor_amended.1 ⟨20, none, true⟩ rfl,
   (crazyMode_floor_amended.2.1 ⟨20, none, true⟩ ⟨none, some 100, some 10⟩ 21000
      100 10 rfl rfl rfl (by decide) (by decide)).1,
   crazyMode_floor_amended.2.2.2 20 (by decide)⟩

/-- Return record of calculateMaxTransferAmount (blockchain.ts lines 1026-1031);
maxAmount and availableBalance are wei for the native path and token base
units for the token path. -/
structure MaxTransferResult where
  maxAmount : Nat
  gasEstimate : GasEstimate
  availableBalance : Nat
  canTransfer : Bool
deriving DecidableEq, Repr

/-- Native branch of calculateMaxTransferAmount (blockchain.ts lines 1084-1108):
maxAmountWei = balance - totalCost as a signed bigint; maxAmount is that value
when positive, else 0; canTransfer iff it is positive. -/
def calculateMaxTransferNative (balanceWei : Nat) (gasEstimate : GasEstimate) :
    MaxTransferResult :=
  let maxAmountWei : Int := (balanceWei : Int) - (gasEstimate.totalCost : Int)
  { maxAmount := if 0 < maxAmountWei then maxAmountWei.toNat else 0
    gasEstimate := gasEstimate
    availableBalance := balanceWei
    canTransfer := decide (0 < maxAmountWei) }

/-- Token branch of calculateMaxTransferAmount (blockchain.ts lines 1054-1083):
gas is paid from the native balance; maxAmount is the full token balance when
the native balance covers totalCost, else 0; canTransfer additionally requires
a positive token balance. -/
def calculateMaxTransferToken (tokenBalance ethBalanceWei : Nat)
    (gasEstimate : GasEstimate) : MaxTransferResult :=
  let canPayGas := decide (gasEstimate.totalCost ≤ ethBalanceWei)
  { maxAmount := if canPayGas then tokenBalance else 0
    gasEstimate := gasEstimate
    availableBalance := tokenBalance
    canTransfer := canPayGas && decide (0 < tokenBalance) }

/-- C1 counterexample: the bound maxAmount + totalCost <= availableBalance
fails on both branches.  Token branch: token balance 5 with gas cost 650000 wei
and ample native balance returns maxAmount 5 and canTransfer true, although
availableBalance (5 tokens) is below totalCost and 5 + 650000 > 5.  Native
branch (the spec scenario balance 0.01, cost 0.02): maxAmount 0 and canTransfer
false hold, but 0 + totalCost exceeds the balance. -/
theorem calculateMaxTransfer_bound_counterexample :
    ¬ ((calculateMaxTransferToken 5 1000000000000000000 ⟨65000, 10, none, none, 650000⟩).maxAmount
        + 650000
        ≤ (calculateMaxTransferToken 5 1000000000000000000 ⟨65000, 10, none, none, 650000⟩).availableBalance)
    ∧ (calculateMaxTransferToken 5 1000000000000000000 ⟨65000, 10, none, none, 650000⟩).availableBalance
        < 650000
    ∧ (calculateMaxTransferToken 5 1000000000000000000 ⟨65000, 10, none, none, 650000⟩).canTransfer = true
    ∧ (calculateMaxTransferToken 5 1000000000000000000 ⟨65000, 10, none, none, 650000⟩).maxAmount = 5
    ∧ ¬ ((calculateMaxTransferNative 10000000000000000 ⟨20000, 1000000000000, none, none, 20000000000000000⟩).maxAmount
        + 20000000000000000
        ≤ (calculateMaxTransferNative 10000000000000000 ⟨20000, 1000000000000, none, none, 20000000000000000⟩).availableBalance)
    ∧ (calculateMaxTransferNative 10000000000000000 ⟨20000, 1000000000000, none, none, 20000000000000000⟩).maxAmount = 0
    ∧ (calculateMaxTransferNative 10000000000000000 ⟨20000, 1000000000000, none, none, 20000000000000000⟩).canTransfer = false := by
  decide

/-- C1 amended: on the native branch, maxAmount + totalCost <= balance holds
whenever totalCost <= balance, and a balance below totalCost yields maxAmount 0
with canTransfer false; on the token branch maxAmount is the full token balance
whenever the native balance covers totalCost (so the bound does not relate
maxAmount to availableBalance there), and a native balance below totalCost
yields maxAmount 0 with canTransfer false. -/
theorem calculateMaxTransfer_amended (balanceWei : Nat) (ge : GasEstimate) :
    (ge.totalCost ≤ balanceWei →
      (calculateMaxTransferNative balanceWei ge).maxAmount + ge.totalCost ≤ balanceWei)
    ∧ (balanceWei < ge.totalCost →
      (calculateMaxTransferNative balanceWei ge).maxAmount = 0
      ∧ (calculateMaxTransferNative balanceWei ge).canTransfer = false)
    ∧ (∀ tokenBalance ethBalanceWei : Nat,
        (ge.totalCost ≤ ethBalanceWei →
          (calculateMaxTransferToken tokenBalance ethBalanceWei ge).maxAmount = tokenBalance)
        ∧ (ethBalanceWei < ge.totalCost →
          (calculateMaxTransferToken tokenBalance ethBalanceWei ge).maxAmount = 0
          ∧ (calculateMaxTransferToken tokenBalance ethBalanceWei ge).canTransfer = false)) := by
  refine ⟨?_, ?_, ?_⟩
  · intro h
    simp only [calculateMaxTransferNative]
    split <;> omega
  · intro h
    simp only [calculateMaxTransferNative]
    constructor
    · split <;> omega
    · simp only [decide_eq_false_iff_not]
      omega
  · intro tokenBalance ethBalanceWei
    constructor
    · intro h
      simp [calculateMaxTransferToken, h]
    · intro h
      have h' : ¬ (ge.totalCost ≤ ethBalanceWei) := by omega
      simp [calculateMaxTransferToken, h']

/-- C1 witness: the amended theorem applied at balance 100 / totalCost 30
(native) and at token balance 7 with native balance 5 below totalCost 30. -/
theorem calculateMaxTransfer_amended_witness :
    ((calculateMaxTransferNative 100 ⟨21000, 1, none, none, 30⟩).maxAmount + 30 ≤ 100)
    ∧ ((calculateMaxTransferToken 7 5 ⟨21000, 1, none, none, 30⟩).maxAmount = 0
      ∧ (calculateMaxTransferToken 7 5 ⟨21000, 1, none, none, 30⟩).canTransfer = false) :=
  ⟨(calculateMaxTransfer_amended 100 ⟨21000, 1, none, none, 30⟩).1 (by decide),
   ((calculateMaxTransfer_amended 100 ⟨21000, 1, none, none, 30⟩).2.2 7 5).2 (by decide)⟩

/-- JS String.prototype.toLowerCase over the underlying characters. -/
def strLower (s : String) : String := String.mk (s.toList.map Char.toLower)

/-- Containment of a character pattern in a character list. -/
def charsContain (pat : List Char) : List Char → Bool
  | [] => pat.isEmpty
  | c :: rest => pat.isPrefixOf (c :: rest) || charsContain pat rest

/-- JS String.prototype.includes. -/
def strContains (s pat : String) : Bool := charsContain pat.toList s.toList

/-- PreflightResult shape of preflightTransaction (blockchain.ts lines 497-502). -/
structure PreflightResult where
  isValid : Bool
  warnings : List String
  errors : List String
  gasEstimate : Option GasEstimate
deriving DecidableEq, Repr

/-- Environment of one preflightTransaction run: the wallet state and the
values produced by the provider calls the function makes.  The destination
string itself enters the checks only through isAddress (toIsAddress) and
getCode (code). -/
structure PreflightEnv where
  walletAddress : Option String
  toIsAddress : Bool
  amountWei : Int
  code : String
  receiveProbeReverts : Bool
  feeData : FeeData
  estimatedGasLimit : Nat
  balanceWei : Nat
  networkCallOk : Bool
  nonceOk : Bool
deriving DecidableEq, Repr

/-- preflightTransaction (blockchain.ts lines 492-591): sequential checks with
early return on the first blocking error — wallet present, isAddress(to),
amount > 0, contract-code warnings (plus a 20 percent gas-limit inflation that
leaves totalCost unchanged, lines 545-549), balance >= amount + totalCost,
then diagnostic-only network and nonce warnings.  There is no comparison of
the destination with the wallet address.  The enclosing catch (estimator or
balance-read throw) is not modelled: the environment carries the fetched
values. -/
def preflightTransaction (env : PreflightEnv) (dest : String) (strategy : GasStrategy)
    (cfg : Option CustomGasConfig) : PreflightResult :=
  match env.walletAddress with
  | none => { isValid := false, warnings := [], errors := ["钱包未初始化"], gasEstimate := none }
  | some _ =>
  if env.toIsAddress = false then
    { isValid := false, warnings := [], errors := ["无效的目标地址"], gasEstimate := none }
  else if env.amountWei ≤ 0 then
    { isValid := false, warnings := [], errors := ["转账金额必须大于0"], gasEstimate := none }
  else
    let isContract := env.code != "0x"
    let warnings1 : List String :=
      if isContract then
        ["目标地址是合约地址: " ++ dest]
          ++ (if env.receiveProbeReverts then ["合约可能不支持接收ETH转账"] else [])
      else []
    let ge0 := estimateGas env.feeData env.estimatedGasLimit strategy cfg
    let ge := if isContract then { ge0 with gasLimit := applyMult ge0.gasLimit 12 } else ge0
    let warnings2 := warnings1 ++ (if isContract then ["已为合约地址增加20% Gas限制"] else [])
    let totalRequired := env.amountWei.toNat + ge.totalCost
    if env.balanceWei < totalRequired then
      { isValid := false, warnings := warnings2, errors := ["余额不足"], gasEstimate := some ge }
    else
      let warnings3 := warnings2 ++
        (if env.networkCallOk = false then ["无法获取网络状态信息"]
         else if optTruthy env.feeData.gasPrice = false then ["网络Gas价格异常，可能影响交易"]
         else [])
      let warnings4 := warnings3 ++ (if env.nonceOk = false then ["无法获取当前nonce"] else [])
      { isValid := true, warnings := warnings4, errors := [], gasEstimate := some ge }

/-- Guard sequence at the head of calculateMaxTransferAmount (blockchain.ts
lines 1032-1052): wallet present, truthy syntactically valid destination,
destination different from the wallet address case-insensitively, network
reachable; each failure throws the given message. -/
def calculateMaxTransferGuards (walletAddress : Option String) (dest : String)
    (toIsAddress networkOk : Bool) : Except String Unit :=
  match walletAddress with
  | none => .error "钱包未初始化，请先导入私钥"
  | some w =>
    if dest = "" ∨ toIsAddress = false then .error "目标地址格式无效，请检查地址是否正确"
    else if strLower dest = strLower w then .error "不能转账到自己的地址"
    else if networkOk = false then .error "网络连接失败，请检查网络状态"
    else .ok ()

/-- A 42-character destination equal to the wallet address. -/
def selfTransferAddr : String := "0xaaaaaaaaaaaaaaaaaaaaaaaaaaaaaaaaaaaaaaaa"

/-- Concrete preflight environment for a self-transfer: the wallet address
equals the destination, the amount is 1 MATIC, the balance 10 MATIC, and every
probe succeeds. -/
def envSelfTransfer : PreflightEnv :=
  { walletAddress := some selfTransferAddr
    toIsAddress := true
    amountWei := 1000000000000000000
    code := "0x"
    receiveProbeReverts := false
    feeData := ⟨some 30, none, none⟩
    estimatedGasLimit := 21000
    balanceWei := 10000000000000000000
    networkCallOk := true
    nonceOk := true }

/-- C3 counterexample: a preflight run whose destination equals the wallet
address produces no blocking error at all — isValid is true and errors is
empty, contradicting the claimed self-transfer rejection. -/
theorem preflight_self_transfer_accepted :
    (preflightTransaction envSelfTransfer selfTransferAddr .fast none).isValid = true
    ∧ (preflightTransaction envSelfTransfer selfTransferAddr .fast none).errors = []
    ∧ envSelfTransfer.walletAddress = some selfTransferAddr := by
  decide

/-- C3 amended: preflightTransaction never emits the self-transfer error (its
checks do not compare the destination with the sender), while the self-transfer
rejection lives in calculateMaxTransferAmount, which throws (yielding no
result record) when the destination equals the wallet address
case-insensitively. -/
theorem self_transfer_rejection_site :
    (∀ (env : PreflightEnv) (dest : String) (s : GasStrategy) (c : Option CustomGasConfig),
      "不能转账到自己的地址" ∉ (preflightTransaction env dest s c).errors)
    ∧ (∀ (w dest : String) (nOk : Bool), dest ≠ "" → strLower dest = strLower w →
        calculateMaxTransferGuards (some w) dest true nOk = .error "不能转账到自己的地址") := by
  constructor
  · intro env dest s c
    unfold preflightTransaction
    cases hw : env.walletAddress with
    | none =>
      simp only [hw]
      decide
    | some w =>
      simp only [hw]
      split_ifs <;> (dsimp only; decide)
  · intro w dest nOk h1 h2
    simp [calculateMaxTransferGuards, h1, h2]

/-- C3 witness: the amended theorem applied at the concrete self-transfer
environment and at a concrete wallet address equal to the destination. -/
theorem self_transfer_rejection_site_witness :
    "不能转账到自己的地址" ∉ (preflightTransaction envSelfTransfer selfTransferAddr .fast none).errors
    ∧ calculateMaxTransferGuards (some selfTransferAddr) selfTransferAddr true true
      = .error "不能转账到自己的地址" :=
  ⟨self_transfer_rejection_site.1 envSelfTransfer selfTransferAddr .fast none,
   self_transfer_rejection_site.2 selfTransferAddr selfTransferAddr true
     (by decide) rfl⟩

/-- Keyword set of isRetryableError (blockchain.ts lines 626-639). -/
def retryableKeywords : List String :=
  ["NONCE_EXPIRED", "REPLACEMENT_UNDERPRICED", "UNPREDICTABLE_GAS_LIMIT",
   "network", "timeout", "rate limit", "temporary"]

/-- isRetryableError (blockchain.ts lines 626-639): case-insensitive keyword
containment in the error message. -/
def isRetryableError (msg : String) : Bool :=
  retryableKeywords.any (fun kw => strContains (strLower msg) (strLower kw))

/-- Error-message rewriting in the catch block of sendTransaction
(blockchain.ts lines 712-739). -/
def translateTxError (msg : String) : String :=
  if strContains msg "CALL_EXCEPTION" then "合约调用失败，可能是合约地址无效或函数调用错误"
  else if strContains msg "INSUFFICIENT_FUNDS" then "余额不足，无法支付交易费用"
  else if strContains msg "NONCE_EXPIRED" then "交易nonce已过期，请重试"
  else if strContains msg "REPLACEMENT_UNDERPRICED" then "替换交易Gas价格过低"
  else if strContains msg "UNPREDICTABLE_GAS_LIMIT" then "无法预测Gas限制，可能是合约调用失败"
  else msg

/-- TransactionResult record (blockchain.ts lines 73-79). -/
structure TransactionResult where
  hash : String
  success : Bool
  gasUsed : Option Nat
  gasPrice : Option Nat
  error : Option String
deriving DecidableEq, Repr

/-- Outcome of wallet.sendTransaction + wait(1) inside one attempt: the
broadcast or wait rejected with a message, the wait resolved null, or a
receipt with a status bit arrived. -/
inductive BroadcastOutcome
  | threw (msg : String)
  | noReceipt (hash : String)
  | confirmed (hash : String) (status : Nat) (gasUsed : Nat) (gasPrice : Option Nat)
deriving DecidableEq, Repr

/-- Everything one sendTransaction attempt observes: the preflight result the
attempt computes and the broadcast outcome. -/
structure SendAttemptEnv where
  preflight : PreflightResult
  broadcast : BroadcastOutcome
deriving DecidableEq, Repr

/-- Failure result produced by the catch block of sendTransaction
(blockchain.ts lines 712-740): every thrown error is converted into a
returned TransactionResult with success false. -/
def txCatchResult (msg : String) : TransactionResult :=
  { hash := "", success := false, gasUsed := none, gasPrice := none
    error := some (translateTxError msg) }

/-- Body of one sendTransaction attempt (blockchain.ts lines 648-741): the
try block throws on invalid preflight, broadcast rejection, null receipt or
status 0, and the catch converts every throw into a returned failure result,
so the body never propagates an exception. -/
def sendTxBody (env : SendAttemptEnv) : TransactionResult :=
  if env.preflight.isValid = false then
    txCatchResult ("交易预检查失败: " ++ String.intercalate ", " env.preflight.errors)
  else
    match env.broadcast with
    | .threw m => txCatchResult m
    | .noReceipt _ => txCatchResult "交易确认失败"
    | .confirmed h status gasUsed gasPrice =>
      if status = 0 then txCatchResult "交易执行失败，可能被回滚"
      else
        { hash := h
          success := decide (status = 1)
          gasUsed := some gasUsed
          gasPrice := some (if optTruthy gasPrice then gasPrice.getD 0
            else (env.preflight.gasEstimate.map GasEstimate.gasPrice).getD 0)
          error := none }

/-- retryTransaction loop (blockchain.ts lines 594-623), attempts numbered
from 1: a thrown error is rethrown when non-retryable or when the attempt
count is exhausted, otherwise the operation is invoked again after a backoff
delay.  The second component counts the attempts actually made; the fuel
argument equals maxRetries - attempt + 1 at every call. -/
def retryLoop {α : Type} (op : Nat → Except String α) (maxRetries : Nat) :
    Nat → Nat → Except String α × Nat
  | _, 0 => (.error "重试次数耗尽", 0)
  | attempt, fuel + 1 =>
    match op attempt with
    | .ok v => (.ok v, 1)
    | .error e =>
      if isRetryableError e = false ∨ attempt = maxRetries then (.error e, 1)
      else
        let r := retryLoop op maxRetries (attempt + 1) fuel
        (r.1, r.2 + 1)

/-- retryTransaction (blockchain.ts lines 594-623) with the default
maxRetries = 3. -/
def retryTransaction {α : Type} (op : Nat → Except String α) (maxRetries : Nat) :
    Except String α × Nat :=
  retryLoop op maxRetries 1 maxRetries

/-- sendTransaction (blockchain.ts lines 642-742): the attempt body wrapped by
retryTransaction; the result also carries the number of attempts made. -/
def sendTransaction (envs : Nat → SendAttemptEnv) : Except String TransactionResult × Nat :=
  retryTransaction (fun attempt => .ok (sendTxBody (envs attempt))) 3

/-- Attempt environment in which the underlying broadcast rejects with
NONCE_EXPIRED (a retryable failure) on every attempt, after a valid
preflight. -/
def envNonceExpired : Nat → SendAttemptEnv := fun _ =>
  { preflight := { isValid := true, warnings := [], errors := []
                   gasEstimate := some ⟨21000, 45, none, none, 945000⟩ }
    broadcast := .threw "NONCE_EXPIRED" }

/-- C2: although NONCE_EXPIRED is classified retryable by isRetryableError,
sendTransaction makes exactly one attempt and returns a failure result: the
catch block inside the attempt converts the throw into a returned value, so
the retryTransaction wrapper never observes an error and never re-runs
preflight or gas estimation.  In general every sendTransaction run performs
exactly one attempt. -/
theorem sendTransaction_retryable_failure_not_retried :
    isRetryableError "NONCE_EXPIRED" = true
    ∧ sendTransaction envNonceExpired
      = (.ok ⟨"", false, none, none, some "交易nonce已过期，请重试"⟩, 1)
    ∧ (∀ envs : Nat → SendAttemptEnv, (sendTransaction envs).2 = 1) := by
  refine ⟨by decide, rfl, ?_⟩
  intro envs
  rfl

/-- Health-relevant per-endpoint state (rpcOptimizer.ts RpcNode, lines 4-15).
The rolling responseTime ((old+latest)/2 on success, x1.5 penalty on failure,
measured value on probe success) never feeds back into isHealthy or
errorCount and is omitted. -/
structure NodeState where
  isHealthy : Bool
  errorCount : Nat
deriving DecidableEq, Repr

/-- Events mutating one endpoint: a dispatched call succeeding or failing
(executeRequest, rpcOptimizer.ts lines 203-230), or one health-check probe
with its outcome and measured response time (performHealthCheck,
lines 269-291). -/
inductive NodeEvent
  | callSuccess
  | callFailure
  | probe (ok : Bool) (responseTime : Nat)
deriving DecidableEq, Repr

/-- Initial node record (rpcOptimizer.ts lines 31-80): healthy, zero errors. -/
def initialNode : NodeState := { isHealthy := true, errorCount := 0 }

/-- Per-event mutation: success decrements errorCount with floor 0
(Math.max(0, c-1), line 206); failure increments it and flips isHealthy to
false once it reaches 3 (lines 218-226); a probe is attempted only on
unhealthy nodes and restores health and resets errorCount to 0 when it
succeeds in under 5000 ms (lines 273-285). -/
def stepNode (s : NodeState) (e : NodeEvent) : NodeState :=
  match e with
  | .callSuccess => { s with errorCount := s.errorCount - 1 }
  | .callFailure =>
    { isHealthy := if 3 ≤ s.errorCount + 1 then false else s.isHealthy
      errorCount := s.errorCount + 1 }
  | .probe ok responseTime =>
    if s.isHealthy = false ∧ ok = true ∧ responseTime < 5000 then
      { isHealthy := true, errorCount := 0 }
    else s

/-- Whether an event list contains three consecutive call failures. -/
def threeConsecutiveFailures : List NodeEvent → Bool
  | .callFailure :: .callFailure :: .callFailure :: _ => true
  | _ :: rest => threeConsecutiveFailures rest
  | [] => false

/-- Trace fail, fail, success, fail, fail: the success only decrements the
counter, so the counter decays instead of resetting. -/
def failDecayTrace : List NodeEvent :=
  [.callFailure, .callFailure, .callSuccess, .callFailure, .callFailure]

/-- C4 counterexample: after fail, fail, success, fail, fail the endpoint is
unhealthy although the trace contains no three consecutive failures — an
intervening success does not prevent the healthy-to-unhealthy transition,
because success decrements rather than resets the counter. -/
theorem node_unhealthy_without_three_consecutive_failures :
    threeConsecutiveFailures failDecayTrace = false
    ∧ (failDecayTrace.foldl stepNode initialNode).isHealthy = false
    ∧ (failDecayTrace.foldl stepNode initialNode).errorCount = 3 := by
  decide

/-- C4 amended: healthy-to-unhealthy happens only on a call failure that
brings the error counter (incremented on failure, decremented with floor 0 on
success — not a consecutive-failure counter) to at least 3; unhealthy-to-
healthy happens only via a successful probe under 5000 ms, which resets the
counter to 0; three consecutive failures from the initial state do flip the
flag. -/
theorem node_health_transitions_amended :
    (∀ (s : NodeState) (e : NodeEvent), s.isHealthy = true →
      (stepNode s e).isHealthy = false →
      e = .callFailure ∧ (stepNode s e).errorCount = s.errorCount + 1
        ∧ 3 ≤ s.errorCount + 1)
    ∧ (∀ (s : NodeState) (e : NodeEvent), s.isHealthy = false →
      (stepNode s e).isHealthy = true →
      ∃ rt, e = .probe true rt ∧ rt < 5000 ∧ (stepNode s e).errorCount = 0)
    ∧ (List.foldl stepNode initialNode
        [.callFailure, .callFailure, .callFailure]).isHealthy = false := by
  refine ⟨?_, ?_, by decide⟩
  · intro s e h1 h2
    cases e with
    | callSuccess => simp [stepNode, h1] at h2
    | callFailure =>
      refine ⟨rfl, by simp [stepNode], ?_⟩
      simp only [stepNode] at h2
      by_cases h3 : 3 ≤ s.errorCount + 1
      · exact h3
      · simp [h3, h1] at h2
    | probe ok rt =>
      simp only [stepNode] at h2
      split at h2
      · simp at h2
      · rw [h1] at h2; simp at h2
  · intro s e h1 h2
    cases e with
    | callSuccess => simp [stepNode, h1] at h2
    | callFailure => simp [stepNode, h1] at h2
    | probe ok rt =>
      simp only [stepNode] at h2 ⊢
      split at h2
      · rename_i hcond
        exact ⟨rt, by simp [hcond.2.1], hcond.2.2, by simp [hcond]⟩
      · rw [h1] at h2; simp at h2

/-- C4 witness: the amended theorem applied at a healthy node with counter 2
receiving a failure, and at an unhealthy node receiving a successful fast
probe. -/
theorem node_health_transitions_amended_witness :
    (NodeEvent.callFailure = .callFailure
      ∧ (stepNode ⟨true, 2⟩ .callFailure).errorCount = 2 + 1 ∧ 3 ≤ 2 + 1)
    ∧ ∃ rt, NodeEvent.probe true 50 = .probe true rt ∧ rt < 5000
        ∧ (stepNode ⟨false, 3⟩ (.probe true 50)).errorCount = 0 :=
  ⟨node_health_transitions_amended.1 ⟨true, 2⟩ .callFailure rfl (by decide),
   node_health_transitions_amended.2.1 ⟨false, 3⟩ (.probe true 50) rfl (by decide)⟩

/-- Cache entry (rpcOptimizer.ts line 19): value, creation timestamp, ttl. -/
structure CacheEntry (α : Type) where
  data : α
  timestamp : Nat
  ttl : Nat
deriving DecidableEq, Repr

/-- The cache map, as an association list whose lookup finds the unique entry
per key (Map.set replaces, modelled by cons plus erase). -/
abbrev Cache (α : Type) := List (String × CacheEntry α)

/-- Map.delete on the cache. -/
def eraseKey {α : Type} (cache : Cache α) (key : String) : Cache α :=
  cache.filter (fun p => p.1 != key)

/-- getFromCache (rpcOptimizer.ts lines 90-100): a missing key yields null; an
entry with now - timestamp > ttl is deleted and yields null; otherwise the
stored value is returned. -/
def getFromCache {α : Type} (now : Nat) (cache : Cache α) (key : String) :
    Option α × Cache α :=
  match List.lookup key cache with
  | none => (none, cache)
  | some e =>
    if e.ttl < now - e.timestamp then (none, eraseKey cache key)
    else (some e.data, cache)

/-- setCache (rpcOptimizer.ts lines 102-117): when the map holds at least 1000
entries, sweep the expired ones first; then set (replace) the key with a fresh
timestamp. -/
def setCache {α : Type} (now : Nat) (cache : Cache α) (key : String) (data : α)
    (ttl : Nat) : Cache α :=
  let swept :=
    if 1000 ≤ cache.length then
      cache.filter (fun p => decide (now - p.2.timestamp ≤ p.2.ttl))
    else cache
  (key, ⟨data, now, ttl⟩) :: eraseKey swept key

/-- Cache behaviour of executeRequest (rpcOptimizer.ts lines 132-236): with
cacheTime > 0 a cache hit returns immediately with no network call; otherwise
the healthy-node loop runs (its aggregated outcome is the net argument, a
failure being wrapped into the aggregated error of line 235) and a success is
stored only when cacheTime > 0.  The third component records whether the
network was consulted. -/
def executeRequest {α : Type} (now : Nat) (cache : Cache α) (key : String)
    (cacheTime : Nat) (net : Except String α) : Except String α × Cache α × Bool :=
  if 0 < cacheTime then
    match getFromCache now cache key with
    | (some v, cache1) => (.ok v, cache1, false)
    | (none, cache1) =>
      match net with
      | .ok v => (.ok v, setCache now cache1 key v cacheTime, true)
      | .error e => (.error ("网络请求失败: " ++ e), cache1, true)
  else
    match net with
    | .ok v => (.ok v, cache, true)
    | .error e => (.error ("网络请求失败: " ++ e), cache, true)

/-- C6: no read returns a value older than its ttl.  A read of an entry whose
age is within its ttl returns the cached value with no network call and leaves
the cache unchanged; an entry whose age exceeds its ttl is never served (the
network is consulted); and on such an expired entry with cacheTime > 0 the
entry is removed and a successful fresh fetch is stored under a fresh
timestamp. -/
theorem cache_ttl_read_invariant {α : Type} (now : Nat) (cache : Cache α)
    (key : String) (cacheTime : Nat) (net : Except String α) (e : CacheEntry α) :
    (List.lookup key cache = some e → now - e.timestamp ≤ e.ttl → 0 < cacheTime →
      executeRequest now cache key cacheTime net = (.ok e.data, cache, false))
    ∧ (List.lookup key cache = some e → e.ttl < now - e.timestamp →
      (executeRequest now cache key cacheTime net).2.2 = true)
    ∧ (List.lookup key cache = some e → e.ttl < now - e.timestamp → 0 < cacheTime →
      ∀ v, net = .ok v →
        (executeRequest now cache key cacheTime net).2.1
          = setCache now (eraseKey cache key) key v cacheTime
        ∧ List.lookup key (executeRequest now cache key cacheTime net).2.1
          = some ⟨v, now, cacheTime⟩) := by
  refine ⟨?_, ?_, ?_⟩
  · intro hl hage hct
    have hnot : ¬ (e.ttl < now - e.timestamp) := by omega
    simp [executeRequest, getFromCache, hl, hnot, hct]
  · intro hl hage
    by_cases hct : 0 < cacheTime
    · cases net with
      | ok v => simp [executeRequest, getFromCache, hl, hage, hct]
      | error msg => simp [executeRequest, getFromCache, hl, hage, hct]
    · cases net with
      | ok v => simp [executeRequest, hct]
      | error msg => simp [executeRequest, hct]
  · intro hl hage hct v hnet
    subst hnet
    constructor
    · simp [executeRequest, getFromCache, hl, hage, hct]
    · simp [executeRequest, getFromCache, hl, hage, hct, setCache, List.lookup]

/-- C6 witness: the invariant applied to a concrete entry aged 20 ms with ttl
30 ms (fresh hit, value 42 returned without fetching) and the same entry at
age 100 ms (expired: removed, fetched, fresh value 7 stored). -/
theorem cache_ttl_read_invariant_witness :
    executeRequest 120 [("getBalance:a", (⟨42, 100, 30⟩ : CacheEntry Nat))]
        "getBalance:a" 30000 (.ok 7)
      = (.ok 42, [("getBalance:a", ⟨42, 100, 30⟩)], false)
    ∧ (executeRequest 200 [("getBalance:a", (⟨42, 100, 30⟩ : CacheEntry Nat))]
        "getBalance:a" 30000 (.ok 7)).2.2 = true
    ∧ List.lookup "getBalance:a"
        (executeRequest 200 [("getBalance:a", (⟨42, 100, 30⟩ : CacheEntry Nat))]
          "getBalance:a" 30000 (.ok 7)).2.1
      = some ⟨7, 200, 30000⟩ :=
  ⟨(cache_ttl_read_invariant 120 [("getBalance:a", ⟨42, 100, 30⟩)]
      "getBalance:a" 30000 (.ok 7) ⟨42, 100, 30⟩).1 rfl (by decide) (by decide),
   (cache_ttl_read_invariant 200 [("getBalance:a", ⟨42, 100, 30⟩)]
      "getBalance:a" 30000 (.ok 7) ⟨42, 100, 30⟩).2.1 rfl (by decide),
   ((cache_ttl_read_invariant 200 [("getBalance:a", ⟨42, 100, 30⟩)]
      "getBalance:a" 30000 (.ok 7) ⟨42, 100, 30⟩).2.2 rfl (by decide) (by decide)
      7 rfl).2⟩

/-- Cache key construction (rpcOptimizer.ts lines 86-88):
operation + ":" + JSON.stringify(params). -/
def getCacheKey (operation paramsJson : String) : String :=
  operation ++ ":" ++ paramsJson

/-- clearCacheForOperation (rpcOptimizer.ts lines 120-129): delete every key
starting with the operation prefix. -/
def clearCacheForOperation {α : Type} (cache : Cache α) (operation : String) :
    Cache α :=
  cache.filter (fun p => ! p.1.startsWith (operation ++ ":"))

/-- Purge performed at the start of rpcOptimizer.getBalance (lines 294-307):
clearCacheForOperation for getBalance, then every key containing getBalance or
the queried address. -/
def purgeBalanceCache {α : Type} (cache : Cache α) (address : String) : Cache α :=
  let c1 := clearCacheForOperation cache "getBalance"
  c1.filter (fun p => !(strContains p.1 "getBalance" || strContains p.1 address))

/-- rpcOptimizer.getBalance (rpcOptimizer.ts lines 294-311): the _cacheTime
parameter is taken but never used; the balance caches are purged and the read
issued through executeRequest with ttl 0.  The formatEther presentation of the
returned wei value is not modelled. -/
def rpcGetBalance (now : Nat) (cache : Cache Nat) (address : String)
    (_cacheTime : Option Nat) (net : Except String Nat) :
    Except String Nat × Cache Nat × Bool :=
  let purged := purgeBalanceCache cache address
  executeRequest now purged (getCacheKey "getBalance" ("[\"" ++ address ++ "\"]")) 0 net

/-- BlockchainService.getBalance (blockchain.ts lines 211-239): it first calls
rpcOptimizer.clearCache(), emptying the whole cache, then
rpcOptimizer.getBalance(target, 0); the NaN format check on the result is not
modelled. -/
def blockchainGetBalance (now : Nat) (_cache : Cache Nat) (address : String)
    (net : Except String Nat) : Except String Nat × Cache Nat × Bool :=
  rpcGetBalance now ([] : Cache Nat) address (some 0) net

/-- C10: every getBalance call is a fresh network fetch — the result is
exactly the network outcome (so no cached balance is ever returned, whatever
the cache contains), the caller-supplied cache-time argument is ignored, the
network is always consulted, the resulting cache is exactly the purged cache
(ttl 0 stores nothing), and the blockchain-service wrapper additionally runs
against a fully cleared cache. -/
theorem getBalance_always_fresh (now : Nat) (cache : Cache Nat) (address : String)
    (a1 a2 : Option Nat) (net : Except String Nat) :
    rpcGetBalance now cache address a1 net = rpcGetBalance now cache address a2 net
    ∧ (rpcGetBalance now cache address a1 net).1
      = (match net with
         | .ok v => .ok v
         | .error e => .error ("网络请求失败: " ++ e))
    ∧ (rpcGetBalance now cache address a1 net).2.1 = purgeBalanceCache cache address
    ∧ (rpcGetBalance now cache address a1 net).2.2 = true
    ∧ blockchainGetBalance now cache address net
      = rpcGetBalance now [] address (some 0) net := by
  refine ⟨rfl, ?_, ?_, ?_, rfl⟩ <;> cases net <;> rfl

/-- TransactionStatus record (transactionVerifier.ts lines 3-10). -/
structure TransactionStatus where
  isConfirmed : Bool
  isFailed : Bool
  blockNumber : Option Nat
  gasUsed : Option Nat
  gasPrice : Option Nat
  error : Option String
deriving DecidableEq, Repr

/-- Outcome of provider.waitForTransaction(hash, 1, 30000) for one hash: a
receipt, a null result after the 30 s bound, or a rejection. -/
inductive ReceiptOutcome
  | receipt (status blockNumber gasUsed gasPrice : Nat)
  | timeoutNull
  | threw (msg : String)
deriving DecidableEq, Repr

/-- verifyTransaction (transactionVerifier.ts lines 20-48): a null receipt is
classified failed with the timeout reason, a rejection is caught and
classified failed with its message, and a receipt is classified by its status
bit.  No outcome escapes as an exception. -/
def verifyTransaction (outcome : ReceiptOutcome) : TransactionStatus :=
  match outcome with
  | .timeoutNull =>
    { isConfirmed := false, isFailed := true, blockNumber := none
      gasUsed := none, gasPrice := none, error := some "交易确认超时" }
  | .threw msg =>
    { isConfirmed := false, isFailed := true, blockNumber := none
      gasUsed := none, gasPrice := none, error := some msg }
  | .receipt status blockNumber gasUsed gasPrice =>
    { isConfirmed := decide (status = 1), isFailed := decide (status = 0)
      blockNumber := some blockNumber, gasUsed := some gasUsed
      gasPrice := some gasPrice, error := none }

/-- verifyTransactions (transactionVerifier.ts lines 51-61): every hash is
verified concurrently (Promise.allSettled) and its classification recorded in
the result map under its own hash; the per-hash outcome oracle abstracts the
provider. -/
def verifyTransactions (oracle : String → ReceiptOutcome) (hashes : List String) :
    List (String × TransactionStatus) :=
  hashes.map (fun h => (h, verifyTransaction (oracle h)))

/-- Lookup in a map built by tagging each list element with f. -/
theorem lookup_map_tag {β : Type} (f : String → β) :
    ∀ (l : List String) (h : String), h ∈ l →
      List.lookup h (l.map fun x => (x, f x)) = some (f h) := by
  intro l
  induction l with
  | nil => intro h hm; simp at hm
  | cons a rest ih =>
    intro h hm
    by_cases he : h = a
    · subst he
      simp [List.lookup]
    · have hr : h ∈ rest := by
        rcases List.mem_cons.mp hm with h1 | h2
        · exact absurd h1 he
        · exact h2
      have hne : (h == a) = false := by simp [he]
      simpa [List.lookup, hne] using ih h hr

/-- C7: verifyTransactions classifies every input hash independently — the
entry recorded for a hash is exactly verifyTransaction of the receipt outcome
of that hash alone, so it is unchanged under any change of the other
outcomes; a receipt that never arrives within the bound yields a failed
classification carrying the timeout reason rather than an exception, and a
rejected lookup yields a failed classification carrying its message. -/
theorem verifyTransactions_independent (oracle : String → ReceiptOutcome)
    (hashes : List String) (h : String) :
    (h ∈ hashes → List.lookup h (verifyTransactions oracle hashes)
      = some (verifyTransaction (oracle h)))
    ∧ (∀ oracle2 : String → ReceiptOutcome, oracle2 h = oracle h → h ∈ hashes →
      List.lookup h (verifyTransactions oracle2 hashes)
        = List.lookup h (verifyTransactions oracle hashes))
    ∧ verifyTransaction .timeoutNull
      = { isConfirmed := false, isFailed := true, blockNumber := none
          gasUsed := none, gasPrice := none, error := some "交易确认超时" }
    ∧ (∀ msg, (verifyTransaction (.threw msg)).isFailed = true
        ∧ (verifyTransaction (.threw msg)).error = some msg) := by
  refine ⟨?_, ?_, rfl, fun msg => ⟨rfl, rfl⟩⟩
  · intro hm
    exact lookup_map_tag (fun x => verifyTransaction (oracle x)) hashes h hm
  · intro oracle2 heq hm
    unfold verifyTransactions
    rw [lookup_map_tag (fun x => verifyTransaction (oracle2 x)) hashes h hm,
        lookup_map_tag (fun x => verifyTransaction (oracle x)) hashes h hm, heq]

/-- Oracle of the spec scenario: hash a confirms, every other hash times out. -/
def scenarioOracle : String → ReceiptOutcome := fun h =>
  if h = "0xa" then .receipt 1 100 21000 30 else .timeoutNull

/-- C7 witness: the theorem applied to the batch [0xa (confirms), 0xb (times
out)] — both entries are present and independently classified, and the
timeout of 0xb is a failed status with the timeout reason. -/
theorem verifyTransactions_independent_witness :
    List.lookup "0xa" (verifyTransactions scenarioOracle ["0xa", "0xb"])
      = some (verifyTransaction (scenarioOracle "0xa"))
    ∧ List.lookup "0xb" (verifyTransactions scenarioOracle ["0xa", "0xb"])
      = some (verifyTransaction (scenarioOracle "0xb")) :=
  ⟨(verifyTransactions_independent scenarioOracle ["0xa", "0xb"] "0xa").1 (by decide),
   (verifyTransactions_independent scenarioOracle ["0xa", "0xb"] "0xb").1 (by decide)⟩

/-- ContractValidationResult (contractValidation.ts lines 4-11). -/
structure ContractValidationResult where
  isValid : Bool
  contractType : Option String
  name : Option String
  symbol : Option String
  decimals : Option Nat
  error : Option String
deriving DecidableEq, Repr

/-- ValidatedContract entry (contractValidation.ts lines 14-23); validatedAt
is the store timestamp in ms. -/
structure ValidatedContract where
  address : String
  isValid : Bool
  contractType : String
  name : Option String
  symbol : Option String
  decimals : Option Nat
  validatedAt : Nat
  networkId : Nat
deriving DecidableEq, Repr

/-- The persisted validated_contracts object: a map whose key is the
lowercased address string only (contractValidation.ts line 46). -/
abbrev ValidatedStore := List (String × ValidatedContract)

/-- storeValidatedContract (contractValidation.ts lines 26-52): build the
entry with the lowercased address, the networkId as a field, and a fresh
timestamp, then assign it at key address.toLowerCase(), overwriting whatever
was stored under that key. -/
def storeValidatedContract (store : ValidatedStore) (address : String)
    (result : ContractValidationResult) (networkId : Nat) (now : Nat) :
    ValidatedStore :=
  let entry : ValidatedContract :=
    { address := strLower address
      isValid := result.isValid
      contractType := result.contractType.getD "unknown"
      name := result.name
      symbol := result.symbol
      decimals := result.decimals
      validatedAt := now
      networkId := networkId }
  (strLower address, entry) :: store.filter (fun p => p.1 != strLower address)

/-- getValidatedContractInfo (contractValidation.ts lines 89-101): look up the
lowercased address and return the entry only when its networkId field matches
the requested network. -/
def getValidatedContractInfo (store : ValidatedStore) (address : String)
    (networkId : Nat) : Option ValidatedContract :=
  match List.lookup (strLower address) store with
  | none => none
  | some c => if c.networkId != networkId then none else some c

/-- Concrete validation result used in the C9 statements. -/
def vrERC20 : ContractValidationResult :=
  { isValid := true, contractType := some "ERC20", name := some "Dai"
    symbol := some "DAI", decimals := some 18, error := none }

/-- Concrete contract address used in the C9 statements. -/
def cAddr : String := "0xabcdefabcdefabcdefabcdefabcdefabcdefabcd"

/-- C9 counterexample: the store key is the lowercase address alone, not the
(address, network id) pair — after validating cAddr on network 1 the entry is
retrievable for network 1, but storing a result for the same address on
network 137 overwrites it, and the network-1 entry is no longer retrievable. -/
theorem contract_store_cross_network_overwrite :
    getValidatedContractInfo (storeValidatedContract [] cAddr vrERC20 1 100) cAddr 1
      ≠ none
    ∧ getValidatedContractInfo
        (storeValidatedContract (storeValidatedContract [] cAddr vrERC20 1 100)
          cAddr vrERC20 137 200) cAddr 1
      = none
    ∧ getValidatedContractInfo
        (storeValidatedContract (storeValidatedContract [] cAddr vrERC20 1 100)
          cAddr vrERC20 137 200) cAddr 137
      ≠ none := by
  decide

/-- Lookup of key k is unchanged by filtering out pairs with a different key. -/
theorem lookup_filter_out_other (k k0 : String) :
    ∀ l : List (String × ValidatedContract), k ≠ k0 →
      List.lookup k (l.filter (fun p => p.1 != k0)) = List.lookup k l := by
  intro l hne
  induction l with
  | nil => rfl
  | cons a rest ih =>
    by_cases ha : a.1 = k0
    · have h1 : (a.1 != k0) = false := by simp [ha]
      have h2 : (k == a.1) = false := by simp [ha, hne]
      simp [List.filter, List.lookup, h1, h2, ih]
    · have h1 : (a.1 != k0) = true := by simp [ha]
      by_cases hk : k = a.1
      · simp [List.filter, List.lookup, h1, hk]
      · have h2 : (k == a.1) = false := by simp [hk]
        simp [List.filter, List.lookup, h1, h2, ih]

/-- C9 amended: entries are keyed by lowercase address only.  After a store,
a lookup of the same address returns the new entry exactly for its own
networkId and none for every other network (so a previous entry for the same
address on a different network has been overwritten and is gone); lookups for
addresses with a different lowercase form are untouched; and any successful
lookup returns an entry whose networkId equals the requested one. -/
theorem contract_store_keyed_by_address (store : ValidatedStore) (a : String)
    (r : ContractValidationResult) (n now : Nat) :
    (∀ m : Nat, getValidatedContractInfo (storeValidatedContract store a r n now) a m
      = if n = m then
          some { address := strLower a, isValid := r.isValid
                 contractType := r.contractType.getD "unknown"
                 name := r.name, symbol := r.symbol, decimals := r.decimals
                 validatedAt := now, networkId := n }
        else none)
    ∧ (∀ (b : String) (m : Nat), strLower b ≠ strLower a →
      getValidatedContractInfo (storeValidatedContract store a r n now) b m
        = getValidatedContractInfo store b m)
    ∧ (∀ (a2 : String) (m : Nat) (c : ValidatedContract),
      getValidatedContractInfo store a2 m = some c → c.networkId = m) := by
  refine ⟨?_, ?_, ?_⟩
  · intro m
    simp only [getValidatedContractInfo, storeValidatedContract, List.lookup,
      beq_self_eq_true]
    by_cases hnm : n = m
    · simp [hnm]
    · have : (n != m) = true := by simp [hnm]
      simp [this, hnm]
  · intro b m hne
    simp only [getValidatedContractInfo, storeValidatedContract, List.lookup]
    have h2 : (strLower b == strLower a) = false := by simp [hne]
    rw [h2]
    rw [lookup_filter_out_other (strLower b) (strLower a) store hne]
  · intro a2 m c hc
    simp only [getValidatedContractInfo] at hc
    cases hl : List.lookup (strLower a2) store with
    | none => rw [hl] at hc; simp at hc
    | some c2 =>
      rw [hl] at hc
      by_cases hm : c2.networkId = m
      · have hb : (c2.networkId != m) = false := by simp [hm]
        simp only [hb, Bool.false_eq_true, if_false, Option.some.injEq] at hc
        rw [← hc]
        exact hm
      · have hb : (c2.networkId != m) = true := by simp [hm]
        simp [hb] at hc

/-- C9 witness: the amended theorem applied at a concrete store — the entry
stored for network 137 is retrievable for 137 and not for 1, a different
address is untouched, and a successful lookup carries the matching network. -/
theorem contract_store_keyed_by_address_witness :
    (getValidatedContractInfo (storeValidatedContract [] cAddr vrERC20 137 200) cAddr 1
      = none)
    ∧ getValidatedContractInfo (storeValidatedContract [] cAddr vrERC20 137 200)
        "0x1111111111111111111111111111111111111111" 137
      = getValidatedContractInfo [] "0x1111111111111111111111111111111111111111" 137
    ∧ ((storeValidatedContract [] cAddr vrERC20 137 200).head?.map
        (fun p => p.2.networkId) = some 137) := by
  refine ⟨?_, ?_, by decide⟩
  · have h := (contract_store_keyed_by_address [] cAddr vrERC20 137 200).1 1
    simpa using h
  · exact (contract_store_keyed_by_address [] cAddr vrERC20 137 200).2.1
      "0x1111111111111111111111111111111111111111" 137 (by decide)
